import Mathlib

/-!
Verification development for the mpv-handler playback dispatcher.

The Rust sources embedded here are src/config.rs and src/plugins/play.rs.
External effects (subprocess invocations of the resolver and of the
confirmation dialog, Unix-socket connects and writes, the filesystem and
the process API) are modelled as explicit oracle arguments, so every
function of the code becomes a pure, executable Lean function of its
inputs plus those oracles.  The crate modules error.rs and protocol.rs are
not part of the sources; the Error variants and the Protocol record below
are reconstructed from their uses inside play.rs and config.rs.
-/

namespace MpvHandler

/-- Entry is one enumerated playlist element: (title, sourceURL), as produced
by the flat-playlist enumeration in play.rs (playlist_entries). -/
abbrev Entry := String × String

/-- Error mirrors the crate error type as used by play.rs and config.rs:
io is the From conversion applied by the question-mark operator to
std io errors (stream writes, file reads), toml is the config parse error,
and the remaining variants appear literally in play.rs. -/
inductive Error where
  | io : Error
  | toml : Error
  | socketConnectionFailed : Error
  | playerRunFailed : Error
  | playerExited : Nat → Error
deriving Repr, DecidableEq

/-- Config mirrors struct Config of config.rs: four optional fields. -/
structure Config where
  mpv : Option String
  ytdl : Option String
  proxy : Option String
  socket : Option String
deriving Repr, DecidableEq

/-- Function default_socket of config.rs, unix branch: the windows branch
returns a named-pipe path instead and is not modelled. -/
def default_socket : String := "/tmp/mpvsocket"

/-- Function default_config of config.rs. -/
def default_config : Config :=
  { mpv := none, ytdl := none, proxy := none, socket := some default_socket }

/-- Function Config::load of config.rs.  Oracles: configDir is the result of
get_config_dir, fileExists tells whether config.toml exists there, readOk
tells whether read_to_string succeeds, parsed is the toml parse result of
the file contents, and realpath models the realpath helper (which, per its
source, always returns Ok, so it is a plain function here). -/
def Config.load (configDir : Option String) (fileExists : Bool) (readOk : Bool)
    (parsed : Option Config) (realpath : String → String) : Except Error Config :=
  match configDir with
  | some _ =>
    if fileExists then
      if readOk then
        match parsed with
        | some c =>
          let c := { c with mpv := c.mpv.map realpath, ytdl := c.ytdl.map realpath }
          let c := if c.socket.isNone then { c with socket := some default_socket } else c
          .ok c
        | none => .error .toml
      else .error .io
    else .ok default_config
  | none => .ok default_config

/-- Protocol mirrors the parsed playback intent (crate module protocol.rs,
not among the sources); the fields listed are exactly those play.rs reads:
url, cookies, profile, quality, v_codec, v_title, subfile, startat and
enqueue.  The scheme field is only consulted for debug logging and is
omitted. -/
structure Protocol where
  url : String
  cookies : Option String
  profile : Option String
  quality : Option String
  v_codec : Option String
  v_title : Option String
  subfile : Option String
  startat : Option String
  enqueue : Option Bool
deriving Repr, DecidableEq

/-- Boolean test that pat is a leading segment of s, on character lists. -/
def chPref : List Char → List Char → Bool
  | [], _ => true
  | _ :: _, [] => false
  | a :: as, b :: bs => a == b && chPref as bs

/-- Helper for strContains: does pat occur inside s (character lists). -/
def chContains (pat : List Char) : List Char → Bool
  | [] => chPref pat []
  | c :: rest => chPref pat (c :: rest) || chContains pat rest

/-- Model of the Rust str contains method, used for the explicit playlist
gate proto.url.contains of play.rs line 59. -/
def strContains (s pat : String) : Bool := chContains pat.data s.data

/-- Titles dropped by the enumeration loop of play.rs lines 77-81. -/
def isUnavailable (title : String) : Bool :=
  title == "[Deleted video]" || title == "[Private video]"

/-- Playlist enumeration as performed by play.rs lines 59-84.  The oracle
enumOut is the outcome of the yt-dlp flat-playlist subprocess: none when
the spawn fails or the exit status is unsuccessful (both are skipped by the
code), some raw when it succeeds, raw being the (title, url) pairs parsed
from the stdout lines (lines that are not JSON objects with both fields
are skipped by the code and do not appear in raw).  The enumeration runs
only when the url contains the literal substring that marks an explicit
playlist; otherwise no subprocess is started and the entry list stays
empty. -/
def enumEntries (url : String) (enumOut : Option (List Entry)) : List Entry :=
  if strContains url "&list=" then
    match enumOut with
    | some raw => raw.filter (fun e => ! isUnavailable e.1)
    | none => []
  else []

/-- The PlaylistDetected condition of play.rs line 85: more than one usable
enumerated entry. -/
def playlistDetected (url : String) (enumOut : Option (List Entry)) : Bool :=
  (enumEntries url enumOut).length > 1

/-- ZenityResult is the outcome of the zenity confirmation subprocess as
seen by play.rs lines 91-136: either the spawn itself failed, or the
process exited with an optional status code and produced stdout. -/
inductive ZenityResult where
  | spawnFailed : ZenityResult
  | exited : Option Nat → String → ZenityResult
deriving Repr, DecidableEq

/-- Whitespace test used by the trim model (the common ASCII whitespace
characters; Rust trims full Unicode whitespace, which the inputs at issue
never contain). -/
def isWhite (c : Char) : Bool :=
  c == ' ' || c == '\n' || c == '\t' || c == '\r'

/-- Model of Rust str trim on character lists. -/
def trimChars (l : List Char) : List Char :=
  ((l.dropWhile isWhite).reverse.dropWhile isWhite).reverse

/-- Model of Rust parse::<usize> on character lists: a nonempty all-digit
string parses to its decimal value.  (The Rust parser additionally accepts
a leading plus sign and rejects values above usize::MAX; neither case
matters for the confirmation dialog inputs.) -/
def parseNatChars (l : List Char) : Option Nat :=
  if l ≠ [] && l.all Char.isDigit then
    some (l.foldl (fun acc c => acc * 10 + (c.toNat - 48)) 0)
  else none

/-- Trim-then-parse of the zenity stdout, play.rs lines 105-106. -/
def parseCount (stdout : String) : Option Nat :=
  parseNatChars (trimChars stdout.data)

/-- ConfirmCount step, play.rs lines 101-136: maps the zenity outcome to
(is_playlist, playlist_entries).  Exit code 0 parses the entered count
(0 keeps all, a positive count truncates, unparsable input demotes);
exit code 5 is the dialog timeout and keeps all; any other exit code,
a missing code, or a zenity spawn failure demotes to a single video. -/
def confirmStep (entries : List Entry) (z : ZenityResult) : Bool × List Entry :=
  match z with
  | .spawnFailed => (false, entries)
  | .exited code stdout =>
    if code == some 0 then
      match parseCount stdout with
      | some n => if n = 0 then (true, entries) else (true, entries.take n)
      | none => (false, entries)
    else if code == some 5 then (true, entries)
    else (false, entries)

/-- Full playlist-detection phase of play.rs lines 55-140, composing the
enumeration with the confirmation dialog: yields the pair
(is_playlist, playlist_entries) that the rest of exec consumes.  The
dialog only runs when more than one entry was enumerated. -/
def detect (url : String) (enumOut : Option (List Entry)) (z : ZenityResult) :
    Bool × List Entry :=
  let entries := enumEntries url enumOut
  if entries.length > 1 then confirmStep entries z else (false, entries)

/-- Socket probe of play.rs lines 142-153: use_existing_socket is set when
enqueue was requested, a socket path is configured, and the probing
UnixStream connect succeeds.  The oracle connectOk gives the outcome of a
connect to a given path (connectivity is treated as stable within one
invocation). -/
def routeEnqueue (p : Protocol) (cfg : Config) (connectOk : String → Bool) : Bool :=
  if p.enqueue == some true then
    match cfg.socket with
    | some sp => connectOk sp
    | none => false
  else false

/-- Items of the enqueue burst, play.rs lines 162-166: the enumerated
entries for a playlist, else the single pair built from the intent title
(defaulting to the url) and the original url. -/
def itemsToEnqueue (isPlaylist : Bool) (entries : List Entry) (p : Protocol) :
    List Entry :=
  if isPlaylist then entries
  else [(p.v_title.getD p.url, p.url)]

/-- Function fetch_direct_urls of play.rs lines 280-314.  The oracle value
out is the outcome of the yt-dlp subprocess: none when the spawn fails,
some (ok, lines) when it ran, ok being status.success() and lines the
trimmed stdout split into lines.  On success with at least two lines the
result is (title, video url, optional audio url); every other case falls
back to (default title, original url, none). -/
def fetch_direct_urls (out : Option (Bool × List String)) (url : String)
    (defaultTitle : String) : String × String × Option String :=
  match out with
  | some (true, lines) =>
    match lines with
    | title :: videoUrl :: rest => (title, videoUrl, rest.head?)
    | _ => (defaultTitle, url, none)
  | _ => (defaultTitle, url, none)

/-- ControlCommand is the closed form of the JSON documents play.rs writes
to the control socket: loadfile url mode optionsObject (the options carry
the title and optionally an audio-file), and the set_property command on
the title of playlist position -1. -/
inductive ControlCommand where
  | loadfile : String → String → String → Option String → ControlCommand
  | setPlaylistTitle : String → ControlCommand
deriving Repr, DecidableEq

/-- Boolean check that a command is not a replace-mode loadfile. -/
def usesAppendOnly : ControlCommand → Bool
  | .loadfile _ mode _ _ => mode == "append"
  | .setPlaylistTitle _ => true

/-- Enqueue burst of play.rs lines 171-208 (the loop writing to the already
running instance).  The oracle w gives the outcome of the n-th write on
the stream; ytdl feeds fetch_direct_urls per item url.  Each item fetches
direct urls, then writes a loadfile-append command and a playlist-title
command; the question-mark operator on write_all makes any failed write
return the converted io error immediately.  The result is the list of
commands successfully written plus the Except value of the loop. -/
def enqueueBurst (isPlaylist : Bool) (ytdl : String → Option (Bool × List String))
    (w : Nat → Bool) : List Entry → Nat → List ControlCommand × Except Error Unit
  | [], _ => ([], .ok ())
  | (initialTitle, url) :: rest, n =>
    let r := fetch_direct_urls (ytdl url) url initialTitle
    let displayTitle := if isPlaylist then initialTitle else r.1
    let load := ControlCommand.loadfile r.2.1 "append" displayTitle r.2.2
    let setT := ControlCommand.setPlaylistTitle displayTitle
    if w n then
      if w (n + 1) then
        let k := enqueueBurst isPlaylist ytdl w rest (n + 2)
        (load :: setT :: k.1, k.2)
      else ([load], .error .io)
    else ([], .error .io)

/-- Expected command sequence of one enqueue burst when every write
succeeds, stated from the claims for comparison with enqueueBurst. -/
def enqueueCmds (isPlaylist : Bool) (ytdl : String → Option (Bool × List String)) :
    List Entry → List ControlCommand
  | [] => []
  | (initialTitle, url) :: rest =>
    let r := fetch_direct_urls (ytdl url) url initialTitle
    let displayTitle := if isPlaylist then initialTitle else r.1
    ControlCommand.loadfile r.2.1 "append" displayTitle r.2.2 ::
      ControlCommand.setPlaylistTitle displayTitle :: enqueueCmds isPlaylist ytdl rest

/-- Connect-retry loop of play.rs lines 342-350: up to fuel attempts,
sleeping 200 ms after each failure.  The oracle c tells whether attempt i
succeeds.  Returns (index of the first successful attempt if any, number
of attempts made, total milliseconds slept). -/
def connectLoop (c : Nat → Bool) : Nat → Nat → Option Nat × Nat × Nat
  | 0, _ => (none, 0, 0)
  | fuel + 1, i =>
    if c i then (some i, 1, 0)
    else
      let r := connectLoop c fuel (i + 1)
      (r.1, r.2.1 + 1, r.2.2 + 200)

/-- Append loop of play.rs lines 361-384 (new-instance playlist path,
items after the first).  Per item: fetch direct urls, write the
loadfile-append command, sleep, write the playlist-title command; a failed
write breaks out of the loop without raising an error.  Returns the
commands successfully written; write events are numbered from n. -/
def appendLoop (ytdl : String → Option (Bool × List String)) (w : Nat → Bool) :
    List Entry → Nat → List ControlCommand
  | [], _ => []
  | (title, url) :: rest, n =>
    let r := fetch_direct_urls (ytdl url) url title
    let load := ControlCommand.loadfile r.2.1 "append" r.1 r.2.2
    let setT := ControlCommand.setPlaylistTitle r.1
    if w n then
      if w (n + 1) then load :: setT :: appendLoop ytdl w rest (n + 2)
      else [load]
    else []

/-- Expected append command sequence when every write succeeds, stated
from the claims for comparison with appendLoop. -/
def appendCmds (ytdl : String → Option (Bool × List String)) :
    List Entry → List ControlCommand
  | [] => []
  | (title, url) :: rest =>
    let r := fetch_direct_urls (ytdl url) url title
    ControlCommand.loadfile r.2.1 "append" r.1 r.2.2 ::
      ControlCommand.setPlaylistTitle r.1 :: appendCmds ytdl rest

/-- Function handle_playlist_in_new_instance of play.rs lines 333-396.
Oracles: c is the per-attempt connect outcome against the fresh socket, w
the per-write outcome, ytdl the resolver subprocess.  Result: commands
successfully written, whether the child was killed, and the Except value.
When no socket is configured the function does nothing (the Rust body is
one big if-let on config.socket).  With a connection, the first entry is
written as a replace command (indexing entries[0]; the Rust code would
panic on an empty list, which exec never passes here since the playlist
flag requires at least two entries, so the empty case is mapped to the
do-nothing result); a failed replace write escalates through the
question-mark operator, while failures inside the append loop only break. -/
def handle_playlist_in_new_instance (socket : Option String) (entries : List Entry)
    (ytdl : String → Option (Bool × List String)) (c : Nat → Bool) (w : Nat → Bool) :
    List ControlCommand × Bool × Except Error Unit :=
  match socket with
  | none => ([], false, .ok ())
  | some _ =>
    match (connectLoop c 15 0).1 with
    | none => ([], true, .error .socketConnectionFailed)
    | some _ =>
      match entries with
      | [] => ([], false, .ok ())
      | (t0, u0) :: rest =>
        if w 0 then
          (ControlCommand.loadfile u0 "replace" t0 none :: appendLoop ytdl w rest 1,
            false, .ok ())
        else ([], false, .error .io)

/-- Flag constants of play.rs lines 12-18. -/
def PREFIX_COOKIES : String := "--ytdl-raw-options-append=cookies="

/-- Profile flag constant of play.rs. -/
def PREFIX_PROFILE : String := "--profile="

/-- Format-sort flag constant of play.rs. -/
def PREFIX_FORMATS : String := "--ytdl-raw-options-append=format-sort="

/-- Title flag constant of play.rs. -/
def PREFIX_V_TITLE : String := "--title="

/-- Subtitle-file flag constant of play.rs. -/
def PREFIX_SUBFILE : String := "--sub-file="

/-- Start-offset flag constant of play.rs. -/
def PREFIX_STARTAT : String := "--start="

/-- Script-opts flag constant of play.rs. -/
def PREFIX_YT_PATH : String := "--script-opts=ytdl_hook-ytdl_path="

/-- Function cookies of play.rs lines 400-416: resolves the cookies file
under the config directory and includes it only when it exists on disk
(configDir models get_config_dir, fsExists the existence check). -/
def cookies (configDir : Option String) (fsExists : String → Bool)
    (name : String) : Option String :=
  match configDir with
  | some d =>
    let path := d ++ "/cookies/" ++ name
    if fsExists path then some (PREFIX_COOKIES ++ path) else none
  | none => none

/-- Function profile of play.rs. -/
def profile (v : String) : String := PREFIX_PROFILE ++ v

/-- Digit filter of play.rs line 425 (v.matches(char::is_numeric)): keeps
the decimal digits of the quality hint. -/
def numericChars (v : String) : String := String.mk (v.data.filter Char.isDigit)

/-- Function formats of play.rs lines 422-436. -/
def formats (quality v_codec : Option String) : Option String :=
  let f : List String :=
    (match quality with
     | some v => ["res:" ++ numericChars v]
     | none => []) ++
    (match v_codec with
     | some v => ["+vcodec:" ++ v]
     | none => [])
  if f.isEmpty then none else some (PREFIX_FORMATS ++ String.intercalate "," f)

/-- Function v_title of play.rs. -/
def v_title (v : String) : String := PREFIX_V_TITLE ++ v

/-- Function subfile of play.rs. -/
def subfile (v : String) : String := PREFIX_SUBFILE ++ v

/-- Function startat of play.rs. -/
def startat (v : String) : String := PREFIX_STARTAT ++ v

/-- Function yt_path of play.rs. -/
def yt_path (v : String) : String := PREFIX_YT_PATH ++ v

/-- Conversion of an optional flag into the pushed-or-skipped list. -/
def optToList : Option String → List String
  | some v => [v]
  | none => []

/-- Function build_mpv_options of play.rs lines 317-330: pushes, in source
order, the cookies, profile, formats, title, subfile, start and
ytdl-path flags, each only when the corresponding field is present. -/
def build_mpv_options (p : Protocol) (cfg : Config) (configDir : Option String)
    (fsExists : String → Bool) : List String :=
  (match p.cookies with
   | some v => optToList (cookies configDir fsExists v)
   | none => []) ++
  (match p.profile with
   | some v => [profile v]
   | none => []) ++
  (if p.quality.isSome || p.v_codec.isSome then optToList (formats p.quality p.v_codec)
   else []) ++
  (match p.v_title with
   | some v => [v_title v]
   | none => []) ++
  (match p.subfile with
   | some v => [subfile v]
   | none => []) ++
  (match p.startat with
   | some v => [startat v]
   | none => []) ++
  (match cfg.ytdl with
   | some v => [yt_path v]
   | none => [])

/-- Conditional input-ipc-server flag, pushed by play.rs lines 221-225 and
254-258 when enqueue was requested and a socket path is configured. -/
def ipcFlag (p : Protocol) (cfg : Config) : List String :=
  if p.enqueue == some true then
    match cfg.socket with
    | some sp => ["--input-ipc-server=" ++ sp]
    | none => []
  else []

/-- Argument vector of the single-video launch path, play.rs lines 252-263:
the built options, the conditional ipc flag, then a double dash and the
original url as the sole positional argument. -/
def singleArgs (p : Protocol) (cfg : Config) (configDir : Option String)
    (fsExists : String → Bool) : List String :=
  build_mpv_options p cfg configDir fsExists ++ ipcFlag p cfg ++ ["--", p.url]

/-- Exit-code mapping of play.rs lines 246 and 273:
status.code().unwrap_or(1) as u8. -/
def exitByte (code : Option Int) : Nat := ((code.getD 1).emod 256).toNat

/-- World bundles every external-effect oracle one exec invocation reads. -/
structure World where
  enumOut : Option (List Entry)
  zenity : ZenityResult
  connectOk : String → Bool
  newConnect : Nat → Bool
  writeOk : Nat → Bool
  newWriteOk : Nat → Bool
  ytdl : String → Option (Bool × List String)
  spawnOk : Bool
  waitRes : Option (Bool × Option Int)
  statusRes : Option (Bool × Option Int)
  configDir : Option String
  fsExists : String → Bool

/-- Route taken by one invocation. -/
inductive Route where
  | enqueueExisting : Route
  | launchNew : Route
deriving Repr, DecidableEq

/-- ExecTrace records the observable behavior of one exec invocation:
the route, the commands written on the existing-instance socket, the
commands written on the fresh-instance socket, the launch argument vector,
whether a child was spawned and whether it was killed, and the returned
Result value. -/
structure ExecTrace where
  route : Route
  sentExisting : List ControlCommand
  sentNew : List ControlCommand
  args : List String
  spawned : Bool
  killed : Bool
  result : Except Error Unit
deriving Repr

/-- Launch-new-instance half of exec, play.rs lines 215-276.  For a
playlist: options plus the idle flag plus the conditional ipc flag, spawn,
drive handle_playlist_in_new_instance (its error propagates through the
question-mark operator before the wait), then wait and map the exit
status.  For a single video: options plus the conditional ipc flag plus
the positional url, run to completion via status() (modelled by the
statusRes oracle; none stands for the io error case mapped to
PlayerRunFailed). -/
def launchNewInstance (p : Protocol) (cfg : Config) (w : World) (isPlaylist : Bool)
    (entries : List Entry) : ExecTrace :=
  if isPlaylist then
    let args := build_mpv_options p cfg w.configDir w.fsExists ++ ["--idle=yes"] ++
      ipcFlag p cfg
    let hr := handle_playlist_in_new_instance cfg.socket entries w.ytdl
      w.newConnect w.newWriteOk
    if w.spawnOk then
      { route := .launchNew, sentExisting := [], sentNew := hr.1, args := args,
        spawned := true, killed := hr.2.1,
        result :=
          match hr.2.2 with
          | .error e => .error e
          | .ok _ =>
            match w.waitRes with
            | none => .error .playerRunFailed
            | some s =>
              if s.1 then .ok () else .error (.playerExited (exitByte s.2)) }
    else
      { route := .launchNew, sentExisting := [], sentNew := [], args := args,
        spawned := false, killed := false, result := .error .playerRunFailed }
  else
    { route := .launchNew, sentExisting := [], sentNew := [],
      args := singleArgs p cfg w.configDir w.fsExists,
      spawned := w.statusRes.isSome, killed := false,
      result :=
        match w.statusRes with
        | none => .error .playerRunFailed
        | some s =>
          if s.1 then .ok () else .error (.playerExited (exitByte s.2)) }

/-- Function exec of play.rs lines 51-277: playlist detection, socket
probe, then either the enqueue burst against the existing instance (the
code reconnects before the burst; connectivity being one oracle, the
reconnect agrees with the probe) or the launch of a new instance. -/
def exec (p : Protocol) (cfg : Config) (w : World) : ExecTrace :=
  let d := detect p.url w.enumOut w.zenity
  if routeEnqueue p cfg w.connectOk then
    match cfg.socket with
    | some sp =>
      if w.connectOk sp then
        let b := enqueueBurst d.1 w.ytdl w.writeOk (itemsToEnqueue d.1 d.2 p) 0
        { route := .enqueueExisting, sentExisting := b.1, sentNew := [], args := [],
          spawned := false, killed := false, result := b.2 }
      else launchNewInstance p cfg w d.1 d.2
    | none => launchNewInstance p cfg w d.1 d.2
  else launchNewInstance p cfg w d.1 d.2

/-- Sample intent for concrete evaluations of the enqueue burst. -/
def intentA : Protocol :=
  { url := "https://x/watch?v=1&list=2", cookies := none, profile := none,
    quality := none, v_codec := none, v_title := none, subfile := none,
    startat := none, enqueue := some true }

/-- Sample config for concrete evaluations of the enqueue burst. -/
def configA : Config :=
  { mpv := none, ytdl := none, proxy := none, socket := some "/tmp/mpvsocket" }

/-- Sample world for concrete evaluations of the enqueue burst: a two-item
playlist, a timed-out dialog (keep all), a reachable socket, a resolver
that always fails over to the raw url, and a stream whose third write
fails. -/
def worldA : World :=
  { enumOut := some [("A", "u1"), ("B", "u2")],
    zenity := .exited (some 5) "",
    connectOk := fun _ => true,
    newConnect := fun _ => false,
    writeOk := fun n => decide (n < 2),
    newWriteOk := fun _ => true,
    ytdl := fun _ => none,
    spawnOk := true, waitRes := none, statusRes := none,
    configDir := none, fsExists := fun _ => false }

/-- Sample intent for concrete evaluations of the launch-new retry path. -/
def intentB : Protocol :=
  { url := "https://x/watch?v=1&list=2", cookies := none, profile := none,
    quality := none, v_codec := none, v_title := none, subfile := none,
    startat := none, enqueue := none }

/-- Sample config for concrete evaluations of the launch-new retry path. -/
def configB : Config :=
  { mpv := none, ytdl := none, proxy := none, socket := some "/tmp/s" }

/-- Sample world for the launch-new retry path: the fresh socket never
accepts a connection. -/
def worldB : World :=
  { enumOut := some [("A", "u1"), ("B", "u2")],
    zenity := .exited (some 5) "",
    connectOk := fun _ => false,
    newConnect := fun _ => false,
    writeOk := fun _ => true,
    newWriteOk := fun _ => true,
    ytdl := fun _ => none,
    spawnOk := true, waitRes := none, statusRes := none,
    configDir := none, fsExists := fun _ => false }

theorem launchNewInstance_route (p : Protocol) (cfg : Config) (w : World)
    (b : Bool) (e : List Entry) : (launchNewInstance p cfg w b e).route = .launchNew := by
  unfold launchNewInstance
  cases b with
  | false => rfl
  | true => cases hs : w.spawnOk <;> simp [hs]

/-- C2: whenever the resolver subprocess fails to start, exits with a
non-success status, or prints fewer than two output lines,
fetch_direct_urls returns the caller-supplied default title, the input
source url and no audio url; the function is total, so no error is ever
returned to the caller. -/
theorem claim_C2 (out : Option (Bool × List String)) (url defaultTitle : String)
    (h : out = none ∨ (∃ l, out = some (false, l)) ∨
      (∃ l, out = some (true, l) ∧ l.length < 2)) :
    fetch_direct_urls out url defaultTitle = (defaultTitle, url, none) := by
  rcases h with h | ⟨l, h⟩ | ⟨l, h, hl⟩
  · subst h; rfl
  · subst h; rfl
  · subst h
    rcases l with _ | ⟨t, _ | ⟨v, rest⟩⟩
    · rfl
    · rfl
    · simp only [List.length_cons] at hl
      omega

theorem claim_C2_witness :
    fetch_direct_urls (some (false, ["T", "V", "A"])) "srcUrl" "D" =
      ("D", "srcUrl", none) :=
  claim_C2 _ _ _ (Or.inr (Or.inl ⟨["T", "V", "A"], rfl⟩))

/-- C3 (amended): the playlist-detected state is entered exactly when the
source url contains the explicit playlist marker, the enumeration
subprocess ran and succeeded, and it yielded more than one non-sentinel
entry; in every other case, including urls without the marker (for which
no enumeration subprocess is ever started), the single-item path follows. -/
theorem claim_C3 (url : String) (enumOut : Option (List Entry)) :
    playlistDetected url enumOut = true ↔
      (strContains url "&list=" = true ∧
       ∃ raw, enumOut = some raw ∧
         1 < (raw.filter (fun e => ! isUnavailable e.1)).length) := by
  unfold playlistDetected enumEntries
  cases hc : strContains url "&list=" with
  | false => simp
  | true =>
    cases enumOut with
    | none => simp
    | some raw => simp

/-- C3 counterexample: this url lacks the playlist marker, so even with an
enumeration outcome of three usable entries the machine classifies the
intent as a single item — refuting the claim that enumeration is consulted
for every intent and that more than one entry always yields the playlist
state. -/
theorem claim_C3_cex :
    playlistDetected "https://x/watch?v=1"
      (some [("A", "u1"), ("B", "u2"), ("C", "u3")]) = false ∧
    1 < (([("A", "u1"), ("B", "u2"), ("C", "u3")] : List Entry).filter
      (fun e => ! isUnavailable e.1)).length := by
  constructor
  · decide
  · decide

/-- C5: the enqueue-existing route is taken exactly when enqueue was
requested and the single non-retried probe connect to the configured
socket address succeeds; in every other case the invocation takes the
launch-new route. -/
theorem claim_C5 (p : Protocol) (cfg : Config) (w : World) :
    ((exec p cfg w).route = .enqueueExisting ↔
      (p.enqueue = some true ∧ ∃ sp, cfg.socket = some sp ∧ w.connectOk sp = true)) ∧
    ((exec p cfg w).route ≠ .enqueueExisting → (exec p cfg w).route = .launchNew) := by
  constructor
  · unfold exec routeEnqueue
    rcases hq : p.enqueue with _ | b
    · simp [hq, launchNewInstance_route]
    · rcases b with _ | _
      · simp [hq, launchNewInstance_route]
      · rcases hs : cfg.socket with _ | sp
        · simp [hs, launchNewInstance_route]
        · cases hk : w.connectOk sp with
          | false => simp [hs, hk, launchNewInstance_route]
          | true => simp [hs, hk]
  · intro h
    cases hr : (exec p cfg w).route with
    | enqueueExisting => exact absurd hr h
    | launchNew => rfl

/-- C8: every command of the enqueue-existing burst passes the append mode
to loadfile; an existing player is never sent a replace command, the first
item of a playlist included. -/
theorem claim_C8 (isPlaylist : Bool) (ytdl : String → Option (Bool × List String))
    (w : Nat → Bool) (items : List Entry) (n : Nat) :
    ((enqueueBurst isPlaylist ytdl w items n).1.all usesAppendOnly) = true := by
  induction items generalizing n with
  | nil => rfl
  | cons e rest ih =>
    obtain ⟨t, u⟩ := e
    cases hw : w n with
    | false => simp [enqueueBurst, hw]
    | true =>
      cases hw2 : w (n + 1) with
      | false => simp [enqueueBurst, hw, hw2, usesAppendOnly]
      | true => simp [enqueueBurst, hw, hw2, usesAppendOnly, ih]

/-- C9: every Config value produced by a successful Config::load carries a
socket address: a parsed file without the socket field gets the platform
default, and when no config directory or file exists the default config
(whose socket is the platform default) is returned, so the socket field is
never none after loading. -/
theorem claim_C9 (configDir : Option String) (fileExists readOk : Bool)
    (parsed : Option Config) (realpath : String → String) (c : Config)
    (h : Config.load configDir fileExists readOk parsed realpath = .ok c) :
    c.socket.isSome = true ∧
    (∀ raw, parsed = some raw → raw.socket = none → c.socket = some default_socket) ∧
    ((configDir = none ∨ fileExists = false) → c.socket = some default_socket) := by
  unfold Config.load at h
  rcases configDir with _ | d
  · simp only [Except.ok.injEq] at h
    subst h
    exact ⟨rfl, fun _ _ _ => rfl, fun _ => rfl⟩
  · cases fileExists with
    | false =>
      simp only [if_neg, Bool.false_eq_true, if_false, Except.ok.injEq] at h
      subst h
      exact ⟨rfl, fun _ _ _ => rfl, fun _ => rfl⟩
    | true =>
      cases readOk with
      | false => simp at h
      | true =>
        rcases parsed with _ | raw
        · simp at h
        · simp only [if_pos, Except.ok.injEq] at h
          rcases hs : raw.socket with _ | s
          · simp only [hs, Option.isNone_none, if_pos] at h
            subst h
            exact ⟨rfl, fun _ _ _ => rfl, by simp⟩
          · simp only [hs, Option.isNone_some, Bool.false_eq_true, if_false] at h
            subst h
            refine ⟨by simp [hs], ?_, by simp⟩
            intro raw2 hr hnone
            cases hr
            rw [hs] at hnone
            cases hnone

theorem claim_C9_witness :
    (Config.load (some "/home/u/.config/mpv-handler") true true
      (some { mpv := none, ytdl := none, proxy := none, socket := none }) id =
        .ok default_config) ∧
    default_config.socket.isSome = true ∧
    default_config.socket = some default_socket :=
  ⟨rfl,
   (claim_C9 (some "/home/u/.config/mpv-handler") true true
     (some { mpv := none, ytdl := none, proxy := none, socket := none }) id
     default_config rfl).1,
   (claim_C9 (some "/home/u/.config/mpv-handler") true true
     (some { mpv := none, ytdl := none, proxy := none, socket := none }) id
     default_config rfl).2.1
     { mpv := none, ytdl := none, proxy := none, socket := none } rfl rfl⟩

theorem appendLoop_all_ok (ytdl : String → Option (Bool × List String))
    (entries : List Entry) (n : Nat) :
    appendLoop ytdl (fun _ => true) entries n = appendCmds ytdl entries := by
  induction entries generalizing n with
  | nil => rfl
  | cons e rest ih =>
    obtain ⟨t, u⟩ := e
    simp [appendLoop, appendCmds, ih]

/-- C1: in the launch-new playlist path, once the fresh socket is connected
(and while every write succeeds), the commands sent are exactly a
replace-mode loadfile for entry 0 carrying its enumerated title, followed,
for each remaining entry in original order, by an append-mode loadfile
carrying the just-in-time resolved video url, title and optional audio
file, immediately followed by the playlist-title assignment command. -/
theorem claim_C1 (sp t0 u0 : String) (rest : List Entry)
    (ytdl : String → Option (Bool × List String)) (c : Nat → Bool)
    (h : ((connectLoop c 15 0).1).isSome = true) :
    handle_playlist_in_new_instance (some sp) ((t0, u0) :: rest) ytdl c
      (fun _ => true) =
      (ControlCommand.loadfile u0 "replace" t0 none :: appendCmds ytdl rest,
        false, .ok ()) := by
  unfold handle_playlist_in_new_instance
  rcases hc : (connectLoop c 15 0).1 with _ | i
  · rw [hc] at h
    simp at h
  · simp [hc, appendLoop_all_ok]

theorem claim_C1_witness :
    handle_playlist_in_new_instance (some "/tmp/mpvsocket")
      [("T0", "U0"), ("T1", "U1")] (fun _ => none) (fun _ => true)
      (fun _ => true) =
      ([ControlCommand.loadfile "U0" "replace" "T0" none,
        ControlCommand.loadfile "U1" "append" "T1" none,
        ControlCommand.setPlaylistTitle "T1"], false, .ok ()) := by
  have h := claim_C1 "/tmp/mpvsocket" "T0" "U0" [("T1", "U1")] (fun _ => none)
    (fun _ => true) (by decide)
  exact h

theorem connectLoop_all_fail (c : Nat → Bool) :
    ∀ (fuel i : Nat), (∀ j, i ≤ j → j < i + fuel → c j = false) →
      connectLoop c fuel i = (none, fuel, 200 * fuel) := by
  intro fuel
  induction fuel with
  | zero => intro i _; rfl
  | succ f ih =>
    intro i h
    have hci : c i = false := h i (le_refl i) (by omega)
    have hrec := ih (i + 1) (fun j hj1 hj2 => h j (by omega) (by omega))
    simp [connectLoop, hci, hrec, Nat.mul_succ]

theorem connectLoop_attempts_le (c : Nat → Bool) :
    ∀ (fuel i : Nat), (connectLoop c fuel i).2.1 ≤ fuel := by
  intro fuel
  induction fuel with
  | zero => intro i; exact Nat.le_refl 0
  | succ f ih =>
    intro i
    cases hci : c i with
    | true => simp [connectLoop, hci]
    | false =>
      simp only [connectLoop, hci, Bool.false_eq_true, if_false]
      have := ih (i + 1)
      omega

/-- C7: in the launch-new playlist path the connect to the fresh socket is
attempted at most 15 times with a 200 ms sleep after each failure; when
every attempt fails, the loop makes exactly 15 attempts (3000 ms slept),
nothing is written, the spawned child is killed, and the invocation fails
with SocketConnectionFailed — never with PlayerExited. -/
theorem claim_C7 (p : Protocol) (cfg : Config) (w : World) (sp : String)
    (entries : List Entry) (hsock : cfg.socket = some sp)
    (hspawn : w.spawnOk = true)
    (hfail : ∀ i, i < 15 → w.newConnect i = false) :
    connectLoop w.newConnect 15 0 = (none, 15, 3000) ∧
    handle_playlist_in_new_instance cfg.socket entries w.ytdl w.newConnect
      w.newWriteOk = ([], true, .error .socketConnectionFailed) ∧
    (launchNewInstance p cfg w true entries).result =
      .error .socketConnectionFailed ∧
    (launchNewInstance p cfg w true entries).killed = true ∧
    (∀ n, (launchNewInstance p cfg w true entries).result ≠
      .error (.playerExited n)) ∧
    (∀ c2 : Nat → Bool, (connectLoop c2 15 0).2.1 ≤ 15) := by
  have h1 : connectLoop w.newConnect 15 0 = (none, 15, 3000) := by
    have := connectLoop_all_fail w.newConnect 15 0
      (fun j _ hj2 => hfail j (by omega))
    simpa using this
  have h2 : handle_playlist_in_new_instance cfg.socket entries w.ytdl
      w.newConnect w.newWriteOk = ([], true, .error .socketConnectionFailed) := by
    rw [hsock]
    unfold handle_playlist_in_new_instance
    rw [h1]
  have h3 : (launchNewInstance p cfg w true entries).result =
      .error .socketConnectionFailed := by
    unfold launchNewInstance
    simp only [if_pos, hspawn, h2]
  have h4 : (launchNewInstance p cfg w true entries).killed = true := by
    unfold launchNewInstance
    simp only [if_pos, hspawn, h2]
  refine ⟨h1, h2, h3, h4, ?_, fun c2 => connectLoop_attempts_le c2 15 0⟩
  intro n hcontra
  rw [h3] at hcontra
  exact Error.noConfusion (Except.error.inj hcontra)

theorem claim_C7_witness :
    connectLoop worldB.newConnect 15 0 = (none, 15, 3000) ∧
    (launchNewInstance intentB configB worldB true []).result =
      .error .socketConnectionFailed ∧
    (launchNewInstance intentB configB worldB true []).killed = true := by
  have h := claim_C7 intentB configB worldB "/tmp/s" [] rfl rfl (by decide)
  exact ⟨h.1, h.2.2.1, h.2.2.2.1⟩

/-- C4 (amended): for a detected playlist the confirmation outcome maps as
follows: an explicit count N greater than zero truncates the entries to
the first N in original order (all of them when N exceeds the length); an
explicit 0 or a dialog timeout keeps all entries; cancel (any other exit
status), invalid input, or an unavailable dialog demotes to a single item
— and that single item, downstream, carries the original intent url (with
the intent title when present), not the first playlist entry. -/
theorem claim_C4 (entries : List Entry) (s : String) (c : Option Nat)
    (p : Protocol) (cfg : Config) (cd : Option String) (fs : String → Bool) :
    (∀ n, parseCount s = some n → n ≠ 0 →
      confirmStep entries (.exited (some 0) s) = (true, entries.take n)) ∧
    (parseCount s = some 0 →
      confirmStep entries (.exited (some 0) s) = (true, entries)) ∧
    confirmStep entries (.exited (some 5) s) = (true, entries) ∧
    (parseCount s = none →
      confirmStep entries (.exited (some 0) s) = (false, entries)) ∧
    (c ≠ some 0 → c ≠ some 5 →
      confirmStep entries (.exited c s) = (false, entries)) ∧
    confirmStep entries .spawnFailed = (false, entries) ∧
    itemsToEnqueue false entries p = [(p.v_title.getD p.url, p.url)] ∧
    (∃ l, singleArgs p cfg cd fs = l ++ ["--", p.url]) := by
  refine ⟨?_, ?_, rfl, ?_, ?_, rfl, rfl, ⟨_, rfl⟩⟩
  · intro n hp hn
    simp [confirmStep, hp, hn]
  · intro hp
    simp [confirmStep, hp]
  · intro hp
    simp [confirmStep, hp]
  · intro h0 h5
    have hb0 : (c == some 0) = false := beq_eq_false_iff_ne.mpr h0
    have hb5 : (c == some 5) = false := beq_eq_false_iff_ne.mpr h5
    simp [confirmStep, hb0, hb5]

theorem claim_C4_witness :
    confirmStep [("A", "u1"), ("B", "u2"), ("C", "u3")] (.exited (some 0) "2") =
      (true, [("A", "u1"), ("B", "u2")]) ∧
    confirmStep [("A", "u1"), ("B", "u2"), ("C", "u3")] (.exited (some 0) "0") =
      (true, [("A", "u1"), ("B", "u2"), ("C", "u3")]) ∧
    confirmStep [("A", "u1"), ("B", "u2"), ("C", "u3")] (.exited (some 1) "") =
      (false, [("A", "u1"), ("B", "u2"), ("C", "u3")]) := by
  refine ⟨?_, ?_, ?_⟩
  · exact (claim_C4 [("A", "u1"), ("B", "u2"), ("C", "u3")] "2" none
      ⟨"u", none, none, none, none, none, none, none, none⟩
      ⟨none, none, none, none⟩ none (fun _ => false)).1 2 (by decide) (by decide)
  · exact (claim_C4 [("A", "u1"), ("B", "u2"), ("C", "u3")] "0" none
      ⟨"u", none, none, none, none, none, none, none, none⟩
      ⟨none, none, none, none⟩ none (fun _ => false)).2.1 (by decide)
  · exact (claim_C4 [("A", "u1"), ("B", "u2"), ("C", "u3")] "" (some 1)
      ⟨"u", none, none, none, none, none, none, none, none⟩
      ⟨none, none, none, none⟩ none (fun _ => false)).2.2.2.2.1
      (by decide) (by decide)

/-- C4 counterexample: after a cancelled dialog the machine demotes to a
single item, but the item subsequently sent downstream is built from the
original intent url, not from the first playlist entry. -/
theorem claim_C4_cex :
    confirmStep [("A", "u1"), ("B", "u2")] (.exited (some 1) "") =
      (false, [("A", "u1"), ("B", "u2")]) ∧
    itemsToEnqueue false [("A", "u1"), ("B", "u2")]
      ⟨"https://x/watch?v=1&list=2", none, none, none, none, none, none, none,
        some true⟩ =
      [("https://x/watch?v=1&list=2", "https://x/watch?v=1&list=2")] ∧
    (("https://x/watch?v=1&list=2", "https://x/watch?v=1&list=2") : Entry) ≠
      ("A", "u1") := by
  exact ⟨rfl, rfl, by decide⟩

theorem appendLoop_break_load (ytdl : String → Option (Bool × List String))
    (w : Nat → Bool) :
    ∀ (entries : List Entry) (k n : Nat),
      (∀ m, m < 2 * k → w (n + m) = true) → w (n + 2 * k) = false →
      k < entries.length →
      appendLoop ytdl w entries n = appendCmds ytdl (entries.take k) := by
  intro entries
  induction entries with
  | nil => intro k n _ _ hk; simp at hk
  | cons e rest ih =>
    intro k n hpre hfail hk
    obtain ⟨t, u⟩ := e
    cases k with
    | zero =>
      have h0 : w n = false := by simpa using hfail
      simp [appendLoop, h0, appendCmds]
    | succ k2 =>
      have h0 : w n = true := by simpa using hpre 0 (by omega)
      have h1 : w (n + 1) = true := by simpa using hpre 1 (by omega)
      have hpre2 : ∀ m, m < 2 * k2 → w (n + 2 + m) = true := by
        intro m hm
        have := hpre (2 + m) (by omega)
        rwa [show n + (2 + m) = n + 2 + m by omega] at this
      have hfail2 : w (n + 2 + 2 * k2) = false := by
        rwa [show n + 2 * (k2 + 1) = n + 2 + 2 * k2 by omega] at hfail
      have hk2 : k2 < rest.length := by
        simp only [List.length_cons] at hk
        omega
      simp [appendLoop, h0, h1, appendCmds, ih k2 (n + 2) hpre2 hfail2 hk2]

theorem enqueueBurst_break_load (isPl : Bool)
    (ytdl : String → Option (Bool × List String)) (w : Nat → Bool) :
    ∀ (items : List Entry) (k n : Nat),
      (∀ m, m < 2 * k → w (n + m) = true) → w (n + 2 * k) = false →
      k < items.length →
      enqueueBurst isPl ytdl w items n =
        (enqueueCmds isPl ytdl (items.take k), .error .io) := by
  intro items
  induction items with
  | nil => intro k n _ _ hk; simp at hk
  | cons e rest ih =>
    intro k n hpre hfail hk
    obtain ⟨t, u⟩ := e
    cases k with
    | zero =>
      have h0 : w n = false := by simpa using hfail
      simp [enqueueBurst, h0, enqueueCmds]
    | succ k2 =>
      have h0 : w n = true := by simpa using hpre 0 (by omega)
      have h1 : w (n + 1) = true := by simpa using hpre 1 (by omega)
      have hpre2 : ∀ m, m < 2 * k2 → w (n + 2 + m) = true := by
        intro m hm
        have := hpre (2 + m) (by omega)
        rwa [show n + (2 + m) = n + 2 + m by omega] at this
      have hfail2 : w (n + 2 + 2 * k2) = false := by
        rwa [show n + 2 * (k2 + 1) = n + 2 + 2 * k2 by omega] at hfail
      have hk2 : k2 < rest.length := by
        simp only [List.length_cons] at hk
        omega
      simp [enqueueBurst, h0, h1, enqueueCmds, ih k2 (n + 2) hpre2 hfail2 hk2]

/-- C6 (amended): when the loadfile write of item k+1 of a burst fails
after the writes of the first k items succeeded, exactly the command pairs
of the first k items remain sent and no later item is attempted — in both
bursts.  In the new-instance playlist burst the failure is swallowed and
the enclosing function still returns ok (given the connect and the replace
write succeeded); in the enqueue-existing burst, however, the failure
escalates as an io error to the invocation result even though earlier
items were already accepted. -/
theorem claim_C6 (ytdl : String → Option (Bool × List String)) (w wx : Nat → Bool)
    (entries items : List Entry) (k kx : Nat) (sp t0 u0 : String)
    (c : Nat → Bool) (isPl : Bool)
    (hcon : ((connectLoop c 15 0).1).isSome = true)
    (h0 : w 0 = true)
    (hpre : ∀ m, m < 2 * k → w (1 + m) = true)
    (hfail : w (1 + 2 * k) = false) (hk : k < entries.length)
    (hprex : ∀ m, m < 2 * kx → wx m = true)
    (hfailx : wx (2 * kx) = false) (hkx : kx < items.length) :
    handle_playlist_in_new_instance (some sp) ((t0, u0) :: entries) ytdl c w =
      (ControlCommand.loadfile u0 "replace" t0 none ::
        appendCmds ytdl (entries.take k), false, .ok ()) ∧
    enqueueBurst isPl ytdl wx items 0 =
      (enqueueCmds isPl ytdl (items.take kx), .error .io) := by
  constructor
  · unfold handle_playlist_in_new_instance
    rcases hc : (connectLoop c 15 0).1 with _ | i
    · rw [hc] at hcon
      simp at hcon
    · simp [hc, h0, appendLoop_break_load ytdl w entries k 1 hpre hfail hk]
  · exact enqueueBurst_break_load isPl ytdl wx items kx 0
      (fun m hm => by simpa using hprex m hm) (by simpa using hfailx) hkx

theorem claim_C6_witness :
    handle_playlist_in_new_instance (some "/tmp/s")
      [("T0", "U0"), ("T1", "U1"), ("T2", "U2")] (fun _ => none)
      (fun _ => true) (fun n => decide (n < 3)) =
      ([ControlCommand.loadfile "U0" "replace" "T0" none,
        ControlCommand.loadfile "U1" "append" "T1" none,
        ControlCommand.setPlaylistTitle "T1"], false, .ok ()) ∧
    enqueueBurst true (fun _ => none) (fun n => decide (n < 2))
      [("A", "u1"), ("B", "u2")] 0 =
      ([ControlCommand.loadfile "u1" "append" "A" none,
        ControlCommand.setPlaylistTitle "A"], .error .io) := by
  exact claim_C6 (fun _ => none) (fun n => decide (n < 3)) (fun n => decide (n < 2))
    [("T1", "U1"), ("T2", "U2")] [("A", "u1"), ("B", "u2")] 1 1 "/tmp/s" "T0" "U0"
    (fun _ => true) true (by decide) (by decide) (by decide) (by decide) (by decide)
    (by decide) (by decide) (by decide)

/-- C6 counterexample: an existing-instance burst of two items whose third
write fails leaves the first item fully accepted and aborts the rest, but
— contrary to the claim — the write failure escalates to the invocation
result as an error even though one item was already accepted. -/
theorem claim_C6_cex :
    (exec intentA configA worldA).route = .enqueueExisting ∧
    (exec intentA configA worldA).sentExisting =
      [ControlCommand.loadfile "u1" "append" "A" none,
       ControlCommand.setPlaylistTitle "A"] ∧
    (exec intentA configA worldA).result = .error .io := by
  exact ⟨rfl, rfl, rfl⟩

theorem str_append_ne (p q : String) (hp : 2 < p.data.length)
    (hq : 2 < q.data.length) (hne : p.data[2]? ≠ q.data[2]?) (v s : String) :
    p ++ v ≠ q ++ s := by
  intro h
  have hd : p.data ++ v.data = q.data ++ s.data := by
    rw [← String.data_append, ← String.data_append, h]
  have h2 : (p.data ++ v.data)[2]? = (q.data ++ s.data)[2]? := by rw [hd]
  rw [List.getElem?_append_left hp, List.getElem?_append_left hq] at h2
  exact hne h2

theorem flag_decomp (pfx rem v : String) (h : pfx = "--" ++ rem) :
    ∃ t, pfx ++ v = "--" ++ t :=
  ⟨rem ++ v, by rw [h, String.append_assoc]⟩

theorem mem_optToList (o : Option String) (a : String) (h : a ∈ optToList o) :
    o = some a := by
  cases o with
  | none => simp [optToList] at h
  | some x =>
    simp [optToList] at h
    rw [h]

theorem cookies_shape (cd : Option String) (fs : String → Bool) (nm x : String)
    (h : cookies cd fs nm = some x) : ∃ t, x = PREFIX_COOKIES ++ t := by
  unfold cookies at h
  cases cd with
  | none => cases h
  | some d =>
    dsimp only at h
    split at h
    · exact ⟨d ++ "/cookies/" ++ nm, (Option.some.inj h).symm⟩
    · cases h

theorem formats_shape (q vc : Option String) (x : String)
    (h : formats q vc = some x) : ∃ t, x = PREFIX_FORMATS ++ t := by
  rcases q with _ | qv <;> rcases vc with _ | cv
  · simp [formats] at h
  · simp [formats] at h
    exact ⟨_, h.symm⟩
  · simp [formats] at h
    exact ⟨_, h.symm⟩
  · simp [formats] at h
    exact ⟨_, h.symm⟩

theorem mem_build_mpv_options (p : Protocol) (cfg : Config) (cd : Option String)
    (fs : String → Bool) (a : String)
    (ha : a ∈ build_mpv_options p cfg cd fs) :
    ∃ v, a = PREFIX_COOKIES ++ v ∨ a = PREFIX_PROFILE ++ v ∨
      a = PREFIX_FORMATS ++ v ∨ a = PREFIX_V_TITLE ++ v ∨
      a = PREFIX_SUBFILE ++ v ∨ a = PREFIX_STARTAT ++ v ∨
      a = PREFIX_YT_PATH ++ v := by
  unfold build_mpv_options at ha
  simp only [List.mem_append] at ha
  rcases ha with ((((((h | h) | h) | h) | h) | h) | h)
  · rcases hc : p.cookies with _ | nm
    · rw [hc] at h; cases h
    · rw [hc] at h
      obtain ⟨t, ht⟩ := cookies_shape cd fs nm a (mem_optToList _ _ h)
      exact ⟨t, Or.inl ht⟩
  · rcases hc : p.profile with _ | v
    · rw [hc] at h; cases h
    · rw [hc] at h
      simp only [List.mem_singleton] at h
      exact ⟨v, Or.inr (Or.inl h)⟩
  · split at h
    · obtain ⟨t, ht⟩ := formats_shape p.quality p.v_codec a (mem_optToList _ _ h)
      exact ⟨t, Or.inr (Or.inr (Or.inl ht))⟩
    · cases h
  · rcases hc : p.v_title with _ | v
    · rw [hc] at h; cases h
    · rw [hc] at h
      simp only [List.mem_singleton] at h
      exact ⟨v, Or.inr (Or.inr (Or.inr (Or.inl h)))⟩
  · rcases hc : p.subfile with _ | v
    · rw [hc] at h; cases h
    · rw [hc] at h
      simp only [List.mem_singleton] at h
      exact ⟨v, Or.inr (Or.inr (Or.inr (Or.inr (Or.inl h))))⟩
  · rcases hc : p.startat with _ | v
    · rw [hc] at h; cases h
    · rw [hc] at h
      simp only [List.mem_singleton] at h
      exact ⟨v, Or.inr (Or.inr (Or.inr (Or.inr (Or.inr (Or.inl h)))))⟩
  · rcases hc : cfg.ytdl with _ | v
    · rw [hc] at h; cases h
    · rw [hc] at h
      simp only [List.mem_singleton] at h
      exact ⟨v, Or.inr (Or.inr (Or.inr (Or.inr (Or.inr (Or.inr h)))))⟩

theorem build_not_ipc (p : Protocol) (cfg : Config) (cd : Option String)
    (fs : String → Bool) (a : String)
    (ha : a ∈ build_mpv_options p cfg cd fs) :
    (∃ t, a = "--" ++ t) ∧ ∀ s, a ≠ "--input-ipc-server=" ++ s := by
  obtain ⟨v, hv⟩ := mem_build_mpv_options p cfg cd fs a ha
  rcases hv with h | h | h | h | h | h | h
  · subst h
    exact ⟨flag_decomp PREFIX_COOKIES "ytdl-raw-options-append=cookies=" v (by decide),
      fun s => str_append_ne PREFIX_COOKIES "--input-ipc-server="
        (by decide) (by decide) (by decide) v s⟩
  · subst h
    exact ⟨flag_decomp PREFIX_PROFILE "profile=" v (by decide),
      fun s => str_append_ne PREFIX_PROFILE "--input-ipc-server="
        (by decide) (by decide) (by decide) v s⟩
  · subst h
    exact ⟨flag_decomp PREFIX_FORMATS "ytdl-raw-options-append=format-sort=" v (by decide),
      fun s => str_append_ne PREFIX_FORMATS "--input-ipc-server="
        (by decide) (by decide) (by decide) v s⟩
  · subst h
    exact ⟨flag_decomp PREFIX_V_TITLE "title=" v (by decide),
      fun s => str_append_ne PREFIX_V_TITLE "--input-ipc-server="
        (by decide) (by decide) (by decide) v s⟩
  · subst h
    exact ⟨flag_decomp PREFIX_SUBFILE "sub-file=" v (by decide),
      fun s => str_append_ne PREFIX_SUBFILE "--input-ipc-server="
        (by decide) (by decide) (by decide) v s⟩
  · subst h
    exact ⟨flag_decomp PREFIX_STARTAT "start=" v (by decide),
      fun s => str_append_ne PREFIX_STARTAT "--input-ipc-server="
        (by decide) (by decide) (by decide) v s⟩
  · subst h
    exact ⟨flag_decomp PREFIX_YT_PATH "script-opts=ytdl_hook-ytdl_path=" v (by decide),
      fun s => str_append_ne PREFIX_YT_PATH "--input-ipc-server="
        (by decide) (by decide) (by decide) v s⟩

/-- C10: in the launch-new single-item path, when enqueue was requested and
a socket address is configured (even though the probe had failed) the
argument vector contains the input-ipc-server flag for that address; when
enqueue was not requested, no such flag is passed: the vector is exactly
the built options — each a double-dash flag that is not an ipc-server flag
— followed by the separator and the raw intent url as the sole positional
argument. -/
theorem claim_C10 (p : Protocol) (cfg : Config) (cd : Option String)
    (fs : String → Bool) :
    (p.enqueue = some true → ∀ sp, cfg.socket = some sp →
      ("--input-ipc-server=" ++ sp) ∈ singleArgs p cfg cd fs) ∧
    (p.enqueue ≠ some true →
      singleArgs p cfg cd fs = build_mpv_options p cfg cd fs ++ ["--", p.url] ∧
      ∀ a ∈ build_mpv_options p cfg cd fs,
        (∃ t, a = "--" ++ t) ∧ ∀ s, a ≠ "--input-ipc-server=" ++ s) := by
  constructor
  · intro hq sp hs
    unfold singleArgs ipcFlag
    rw [hq, hs]
    simp
  · intro hq
    have hflag : ipcFlag p cfg = [] := by
      unfold ipcFlag
      rw [beq_eq_false_iff_ne.mpr hq]
      rfl
    refine ⟨?_, fun a ha => build_not_ipc p cfg cd fs a ha⟩
    unfold singleArgs
    rw [hflag]
    simp

theorem claim_C10_witness :
    ("--input-ipc-server=" ++ "/tmp/s") ∈
      singleArgs ⟨"https://x", none, none, none, none, none, none, none, some true⟩
        ⟨none, none, none, some "/tmp/s"⟩ none (fun _ => false) ∧
    singleArgs ⟨"https://x", none, none, none, none, none, none, none, none⟩
      ⟨none, none, none, some "/tmp/s"⟩ none (fun _ => false) =
      build_mpv_options ⟨"https://x", none, none, none, none, none, none, none, none⟩
        ⟨none, none, none, some "/tmp/s"⟩ none (fun _ => false) ++
        ["--", "https://x"] := by
  constructor
  · exact (claim_C10 ⟨"https://x", none, none, none, none, none, none, none, some true⟩
      ⟨none, none, none, some "/tmp/s"⟩ none (fun _ => false)).1 rfl "/tmp/s" rfl
  · exact ((claim_C10 ⟨"https://x", none, none, none, none, none, none, none, none⟩
      ⟨none, none, none, some "/tmp/s"⟩ none (fun _ => false)).2 (by decide)).1

theorem claim_C3_witness :
    playlistDetected "https://x/watch?v=1&list=2"
      (some [("A", "u1"), ("B", "u2")]) = true :=
  (claim_C3 "https://x/watch?v=1&list=2" (some [("A", "u1"), ("B", "u2")])).mpr
    ⟨by decide, [("A", "u1"), ("B", "u2")], rfl, by decide⟩

theorem claim_C5_witness :
    (exec intentA configA worldA).route = .enqueueExisting :=
  (claim_C5 intentA configA worldA).1.mpr ⟨rfl, "/tmp/mpvsocket", rfl, rfl⟩

end MpvHandler
